import Mathlib

/-!
Shallow embedding of `src/src/server/sync.rs` of mehdadi/rust-websocket:
the synchronous WebSocket server (bind, accept-and-upgrade with optional
TLS wrapping, the iterator adapter, handle duplication and the reactor
bridge).

External collaborators (the OS socket primitives, the TLS acceptor and the
handshake-detection contract `into_ws`) are handed to each operation as
explicit oracle arguments, so every code path of the source becomes a total
function of those oracles.  Opaque type parameters throughout:
`S` raw transport stream, `T` TLS-wrapped stream, `R` parsed request,
`B` read buffer, `E` TLS negotiation failure, `H` handshake-grammar
failure, `U` upgrade (success) value, `A` acceptor configuration.
-/

namespace RustWebsocket

/-- Socket addresses are opaque in this development; only identity matters. -/
abbrev SocketAddr := Nat

/-- Relevant subset of the std io ErrorKind enumeration: the code and spec
distinguish WouldBlock (nonblocking accept with nothing pending) and Other
(used at sync.rs line 198 to box a TLS negotiation failure into an io
error); every further OS kind is collapsed into connectionReset. -/
inductive IoErrorKind
  | wouldBlock
  | other
  | connectionReset
  deriving DecidableEq

/-- Cause payload of a std io Error: either an abstract OS cause code, or a
TLS negotiation failure boxed in via io Error new (sync.rs line 198). -/
inductive IoCause (E : Type)
  | os (code : Nat)
  | tls (e : E)
  deriving DecidableEq

/-- A std io Error: a kind together with its cause payload. -/
structure IoError (E : Type) where
  kind : IoErrorKind
  cause : IoCause E
  deriving DecidableEq

/-- Result type of the fallible OS/socket primitives (std io Result). -/
inductive IoResult (E α : Type)
  | ok (a : α)
  | err (e : IoError E)
  deriving DecidableEq

/-- Modelled from the spec: the error classification carried by an
InvalidConnection, following the section 7 taxonomy (IoError, TlsError,
InvalidHandshake).  The source type HyperIntoWsError lives in
server/upgrade, outside src/. -/
inductive WsUpgradeError (E H : Type)
  | ioError (e : IoError E)
  | tlsError (e : E)
  | invalidHandshake (e : H)
  deriving DecidableEq

/-- Modelled from the spec: the conversion applied at `e.into()` to a std
io error (section 4.2 step 1 classifies an io failure as IoError(cause));
the From impl lives outside src/. -/
def ioErrorInto {E H : Type} (e : IoError E) : WsUpgradeError E H :=
  WsUpgradeError.ioError e

/-- Modelled from the spec: InvalidConnection (server/mod.rs, outside
src/); field names and optionality exactly as used at sync.rs lines
182-187, 194-199, 206-211, 240-245 and 252-257. -/
structure InvalidConnection (S R B E H : Type) where
  stream : Option S
  parsed : Option R
  buffer : Option B
  error : WsUpgradeError E H
  deriving DecidableEq

/-- AcceptResult, sync.rs line 21: either an Upgrade (opaque success value
of type U) or an InvalidConnection. -/
inductive AcceptResult (S R B E H U : Type)
  | ok (u : U)
  | err (ic : InvalidConnection S R B E H)
  deriving DecidableEq

/-- Result of the TLS acceptor accept call (native-tls, external
collaborator, section 6). -/
inductive TlsResult (E T : Type)
  | ok (s : T)
  | err (e : E)
  deriving DecidableEq

/-- Result of the handshake-detection contract into_ws (external
collaborator, section 6): success is the upgrade value; failure is the
four-part tuple (stream, parsed request, leftover buffer, error), as
destructured at sync.rs lines 205 and 251. -/
inductive IntoWsResult (S R B E H U : Type)
  | ok (u : U)
  | err (stream : S) (parsed : Option R) (buffer : Option B)
      (error : WsUpgradeError E H)
  deriving DecidableEq

/-- WsServer TlsAcceptor TcpListener accept, sync.rs lines 178-214.
The three external calls are oracles: `la` is the outcome of
self.listener.accept() (a stream plus peer address on success), `sa` is
self.ssl_acceptor.accept, `iw` is into_ws on the TLS-wrapped stream.
At line 198 a TLS failure is boxed as io Error new(ErrorKind Other, err)
before the into conversion; at line 210 the contract error is already of
the classification type, so its into conversion is the identity. -/
def acceptSecure {S T R B E H U : Type}
    (la : IoResult E (S × SocketAddr))
    (sa : S → TlsResult E T)
    (iw : T → IntoWsResult T R B E H U) :
    AcceptResult T R B E H U :=
  match la with
  | IoResult.err e => AcceptResult.err ⟨none, none, none, ioErrorInto e⟩
  | IoResult.ok p =>
    match sa p.1 with
    | TlsResult.err e =>
      AcceptResult.err
        ⟨none, none, none,
          ioErrorInto ⟨IoErrorKind.other, IoCause.tls e⟩⟩
    | TlsResult.ok ws =>
      match iw ws with
      | IntoWsResult.ok u => AcceptResult.ok u
      | IntoWsResult.err s r b e => AcceptResult.err ⟨some s, r, b, e⟩

/-- WsServer NoTlsAcceptor TcpListener accept, sync.rs lines 236-260:
same pipeline without the TLS step. -/
def acceptNoTls {S R B E H U : Type}
    (la : IoResult E (S × SocketAddr))
    (iw : S → IntoWsResult S R B E H U) :
    AcceptResult S R B E H U :=
  match la with
  | IoResult.err e => AcceptResult.err ⟨none, none, none, ioErrorInto e⟩
  | IoResult.ok p =>
    match iw p.1 with
    | IntoWsResult.ok u => AcceptResult.ok u
    | IntoWsResult.err s r b e => AcceptResult.err ⟨some s, r, b, e⟩

/-- One external call performed during an accept, recording the stream it
was given: the raw listener accept, the TLS acceptor accept on a raw
stream, or the handshake contract on the (possibly wrapped) stream. -/
inductive AcceptStep (S T : Type)
  | listenerAcceptCall
  | sslAcceptCall (raw : S)
  | intoWsCall (s : T)
  deriving DecidableEq

/-- Whether a step is the raw listener accept call. -/
def AcceptStep.isListenerAccept {S T : Type} : AcceptStep S T → Bool
  | AcceptStep.listenerAcceptCall => true
  | _ => false

/-- acceptSecure instrumented with the ordered list of external calls it
performs; the second component is the returned outcome. -/
def acceptSecureTrace {S T R B E H U : Type}
    (la : IoResult E (S × SocketAddr))
    (sa : S → TlsResult E T)
    (iw : T → IntoWsResult T R B E H U) :
    List (AcceptStep S T) × AcceptResult T R B E H U :=
  match la with
  | IoResult.err e =>
    ([AcceptStep.listenerAcceptCall],
      AcceptResult.err ⟨none, none, none, ioErrorInto e⟩)
  | IoResult.ok p =>
    match sa p.1 with
    | TlsResult.err e =>
      ([AcceptStep.listenerAcceptCall, AcceptStep.sslAcceptCall p.1],
        AcceptResult.err
          ⟨none, none, none,
            ioErrorInto ⟨IoErrorKind.other, IoCause.tls e⟩⟩)
    | TlsResult.ok ws =>
      ([AcceptStep.listenerAcceptCall, AcceptStep.sslAcceptCall p.1,
          AcceptStep.intoWsCall ws],
        match iw ws with
        | IntoWsResult.ok u => AcceptResult.ok u
        | IntoWsResult.err s r b e => AcceptResult.err ⟨some s, r, b, e⟩)

/-- acceptNoTls instrumented with the ordered list of external calls. -/
def acceptNoTlsTrace {S R B E H U : Type}
    (la : IoResult E (S × SocketAddr))
    (iw : S → IntoWsResult S R B E H U) :
    List (AcceptStep S S) × AcceptResult S R B E H U :=
  match la with
  | IoResult.err e =>
    ([AcceptStep.listenerAcceptCall],
      AcceptResult.err ⟨none, none, none, ioErrorInto e⟩)
  | IoResult.ok p =>
    ([AcceptStep.listenerAcceptCall, AcceptStep.intoWsCall p.1],
      match iw p.1 with
      | IntoWsResult.ok u => AcceptResult.ok u
      | IntoWsResult.err s r b e => AcceptResult.err ⟨some s, r, b, e⟩)

/-- Iterator next for WsServer TlsAcceptor TcpListener, sync.rs lines
221-223: Some(self.accept()). -/
def nextSecure {S T R B E H U : Type}
    (la : IoResult E (S × SocketAddr))
    (sa : S → TlsResult E T)
    (iw : T → IntoWsResult T R B E H U) :
    Option (AcceptResult T R B E H U) :=
  some (acceptSecure la sa iw)

/-- Iterator next for WsServer NoTlsAcceptor TcpListener, sync.rs lines
275-277: Some(self.accept()). -/
def nextNoTls {S R B E H U : Type}
    (la : IoResult E (S × SocketAddr))
    (iw : S → IntoWsResult S R B E H U) :
    Option (AcceptResult S R B E H U) :=
  some (acceptNoTls la iw)

/-- State of an OS listening socket as far as this development observes
it: the identity of the underlying OS socket, the bound address, the
nonblocking flag and the queue of pending raw connections. -/
structure TcpListenerSt (S : Type) where
  socketId : Nat
  boundAddr : SocketAddr
  nonblocking : Bool
  pending : List S
  deriving DecidableEq

/-- The unit acceptor marker of the unsecured server (server/mod.rs,
outside src/). -/
inductive NoTlsAcceptor
  | mk
  deriving DecidableEq

/-- Clone of the unit acceptor marker is the identity. -/
def NoTlsAcceptor.clone : NoTlsAcceptor → NoTlsAcceptor :=
  fun a => a

/-- WsServer (server/mod.rs, outside src/): the listener handle plus the
acceptor configuration field ssl_acceptor, with A the acceptor type
(NoTlsAcceptor for the unsecured server). -/
structure WsServer (A S : Type) where
  listener : TcpListenerSt S
  ssl_acceptor : A
  deriving DecidableEq

/-- Modelled from the spec: the OS accept primitive (section 6 socket
primitives and section 4.1).  If a connection is pending it is delivered;
with none pending a nonblocking listener fails with a WouldBlock
classified io error, and a blocking listener blocks (modelled as none). -/
def TcpListenerSt.acceptPrim {S E : Type} (l : TcpListenerSt S) :
    Option (IoResult E ((S × SocketAddr) × TcpListenerSt S)) :=
  match l.pending with
  | s :: rest =>
    some (IoResult.ok ((s, l.boundAddr), { l with pending := rest }))
  | [] =>
    if l.nonblocking then
      some (IoResult.err ⟨IoErrorKind.wouldBlock, IoCause.os 0⟩)
    else
      none

/-- Modelled from the spec: the OS nonblocking toggle on the listener
(section 6), persistent until changed again. -/
def TcpListenerSt.setNonblockingPrim {S : Type}
    (l : TcpListenerSt S) (b : Bool) : TcpListenerSt S :=
  { l with nonblocking := b }

/-- set_nonblocking, sync.rs lines 151-153: delegates to the listener
primitive. -/
def WsServer.set_nonblocking {A S : Type}
    (sv : WsServer A S) (b : Bool) : WsServer A S :=
  { sv with listener := sv.listener.setNonblockingPrim b }

/-- accept of the unsecured server run against the modelled OS listener
state: composes the OS accept primitive (blocking modelled as none) with
the accept pipeline of sync.rs lines 236-260. -/
def WsServer.acceptModel {S R B E H U : Type}
    (sv : WsServer NoTlsAcceptor S)
    (iw : S → IntoWsResult S R B E H U) :
    Option (AcceptResult S R B E H U) :=
  match sv.listener.acceptPrim with
  | none => none
  | some (IoResult.err e) => some (acceptNoTls (IoResult.err e) iw)
  | some (IoResult.ok pl) => some (acceptNoTls (IoResult.ok pl.1) iw)

/-- Modelled from the spec: OS handle duplication (section 6): on success
the second handle references the same underlying socket (same socketId),
and the call may fail with an io error; success or failure is the oracle
`r` (none means success). -/
def TcpListenerSt.tryClonePrim {S E : Type}
    (l : TcpListenerSt S) (r : Option (IoError E)) :
    IoResult E (TcpListenerSt S) :=
  match r with
  | some e => IoResult.err e
  | none => IoResult.ok l

/-- try_clone, sync.rs lines 263-269: duplicate the listener handle, then
rebuild the server with the cloned acceptor configuration. -/
def WsServer.try_clone {S E : Type}
    (sv : WsServer NoTlsAcceptor S) (r : Option (IoError E)) :
    IoResult E (WsServer NoTlsAcceptor S) :=
  match sv.listener.tryClonePrim r with
  | IoResult.err e => IoResult.err e
  | IoResult.ok inner => IoResult.ok ⟨inner, sv.ssl_acceptor.clone⟩

/-- The two transport capabilities of section 3. -/
inductive Capability
  | unsecured
  | secured
  deriving DecidableEq

/-- Which impl blocks of src/src/server/sync.rs define a try_clone
(duplication) method: the impl for WsServer NoTlsAcceptor TcpListener
(lines 226-270) defines try_clone at lines 263-269; the impl for
WsServer TlsAcceptor TcpListener (lines 166-215) defines bind_secure and
accept only, no try_clone. -/
def providesTryClone : Capability → Bool
  | Capability.unsecured => true
  | Capability.secured => false

/-- bind, sync.rs lines 228-233: the outcome of TcpListener bind is the
oracle `r`; on success the server owns the fresh listener and the unit
acceptor. -/
def WsServer.bind {S E : Type} (r : IoResult E (TcpListenerSt S)) :
    IoResult E (WsServer NoTlsAcceptor S) :=
  match r with
  | IoResult.err e => IoResult.err e
  | IoResult.ok l => IoResult.ok ⟨l, NoTlsAcceptor.mk⟩

/-- bind_secure, sync.rs lines 168-175: as bind, but the server holds the
given TLS acceptor configuration. -/
def WsServer.bind_secure {A S E : Type}
    (r : IoResult E (TcpListenerSt S)) (acceptor : A) :
    IoResult E (WsServer A S) :=
  match r with
  | IoResult.err e => IoResult.err e
  | IoResult.ok l => IoResult.ok ⟨l, acceptor⟩

/-- State of an event-loop listener (tokio, external) as far as this
development observes it: the adopted OS socket identity and address. -/
structure AsyncTcpListenerSt where
  socketId : Nat
  addr : SocketAddr
  deriving DecidableEq

/-- The asynchronous server produced by the reactor bridge. -/
structure AsyncWsServer (A : Type) where
  listener : AsyncTcpListenerSt
  ssl_acceptor : A
  deriving DecidableEq

/-- Modelled from the spec: local_addr returns the concrete bound address
of the listener (section 4.1); fallible, with the oracle `r` (none means
success). -/
def TcpListenerSt.localAddrPrim {S E : Type}
    (l : TcpListenerSt S) (r : Option (IoError E)) :
    IoResult E SocketAddr :=
  match r with
  | some e => IoResult.err e
  | none => IoResult.ok l.boundAddr

/-- Modelled from the spec: tokio from_listener adopts the same underlying
socket into the event loop without rebinding (section 4.5); fallible, with
the oracle `r` (none means success). -/
def AsyncTcpListenerSt.fromListener {S E : Type}
    (l : TcpListenerSt S) (addr : SocketAddr) (r : Option (IoError E)) :
    IoResult E AsyncTcpListenerSt :=
  match r with
  | some e => IoResult.err e
  | none => IoResult.ok ⟨l.socketId, addr⟩

/-- into_async, sync.rs lines 156-162: query the bound address, adopt the
listener into the event loop at that address, and keep ssl_acceptor.  The
two fallible external calls are the oracles r1 and r2. -/
def WsServer.into_async {A S E : Type}
    (sv : WsServer A S) (r1 r2 : Option (IoError E)) :
    IoResult E (AsyncWsServer A) :=
  match sv.listener.localAddrPrim r1 with
  | IoResult.err e => IoResult.err e
  | IoResult.ok addr =>
    match AsyncTcpListenerSt.fromListener sv.listener addr r2 with
    | IoResult.err e => IoResult.err e
    | IoResult.ok al => IoResult.ok ⟨al, sv.ssl_acceptor⟩

/-- Sanity: the instrumented secured accept returns the same outcome as
the plain one. -/
theorem acceptSecureTrace_snd {S T R B E H U : Type}
    (la : IoResult E (S × SocketAddr))
    (sa : S → TlsResult E T)
    (iw : T → IntoWsResult T R B E H U) :
    (acceptSecureTrace la sa iw).2 = acceptSecure la sa iw := by
  cases la with
  | err e => rfl
  | ok p =>
    cases h : sa p.1 with
    | err e => simp [acceptSecureTrace, acceptSecure, h]
    | ok ws =>
      cases h2 : iw ws <;> simp [acceptSecureTrace, acceptSecure, h, h2]

/-- Sanity: the instrumented unsecured accept returns the same outcome as
the plain one. -/
theorem acceptNoTlsTrace_snd {S R B E H U : Type}
    (la : IoResult E (S × SocketAddr))
    (iw : S → IntoWsResult S R B E H U) :
    (acceptNoTlsTrace la iw).2 = acceptNoTls la iw := by
  cases la with
  | err e => rfl
  | ok p =>
    cases h : iw p.1 <;> simp [acceptNoTlsTrace, acceptNoTls, h]

/-- Claim C1, counterexample: on a secured accept where the primitive
succeeds (stream 5) and the TLS acceptor fails with negotiation failure 7,
the returned error is not the TlsError classification carrying 7 — the
code (sync.rs line 198) boxes the failure into an io error of kind Other,
so the error is the IoError classification. -/
theorem C1_counterexample :
    @acceptSecure Nat Nat Nat Nat Nat Nat Nat
        (IoResult.ok (5, 0))
        (fun _ => TlsResult.err 7)
        (fun _ => IntoWsResult.ok 3)
      ≠ AcceptResult.err ⟨none, none, none, WsUpgradeError.tlsError 7⟩ := by
  decide

/-- Claim C1 (amended): for every secured accept in which the underlying
accept primitive succeeds and the TLS wrapping of the raw stream fails,
the call returns InvalidConnection with stream, parsed and buffer all
absent, and an error that is the IoError classification (kind Other) of an
io error wrapping the negotiation failure. -/
theorem C1_tls_failure {S T R B E H U : Type}
    (sa : S → TlsResult E T) (iw : T → IntoWsResult T R B E H U)
    (raw : S) (addr : SocketAddr) (e : E)
    (h : sa raw = TlsResult.err e) :
    acceptSecure (IoResult.ok (raw, addr)) sa iw
      = AcceptResult.err
          ⟨none, none, none,
            WsUpgradeError.ioError ⟨IoErrorKind.other, IoCause.tls e⟩⟩ := by
  simp [acceptSecure, h, ioErrorInto]

/-- Witness for C1_tls_failure at raw stream 5, address 0, TLS failure 7. -/
theorem C1_tls_failure_witness :
    @acceptSecure Nat Nat Nat Nat Nat Nat Nat
        (IoResult.ok (5, 0))
        (fun _ => TlsResult.err 7)
        (fun _ => IntoWsResult.ok 3)
      = AcceptResult.err
          ⟨none, none, none,
            WsUpgradeError.ioError ⟨IoErrorKind.other, IoCause.tls 7⟩⟩ :=
  C1_tls_failure (fun _ => TlsResult.err 7) (fun _ => IntoWsResult.ok 3)
    5 0 7 rfl

/-- Claim C2: on every accept (secured or unsecured) in which the stream
reaches the handshake-detection contract, a contract success is returned
as the Upgrade value unchanged, and a contract failure (stream, parsed,
buffer, error) is returned as InvalidConnection with all four fields
copied through unchanged. -/
theorem C2_contract_mapping {S T R B E H U : Type}
    (la : IoResult E (S × SocketAddr)) (sa : S → TlsResult E T)
    (iw : T → IntoWsResult T R B E H U)
    (p : S × SocketAddr) (ws : T) (u : U)
    (s : T) (r : Option R) (b : Option B) (er : WsUpgradeError E H)
    (la2 : IoResult E (S × SocketAddr))
    (iw2 : S → IntoWsResult S R B E H U)
    (p2 : S × SocketAddr) (u2 : U)
    (s2 : S) (r2 : Option R) (b2 : Option B) (er2 : WsUpgradeError E H) :
    (la = IoResult.ok p → sa p.1 = TlsResult.ok ws →
        iw ws = IntoWsResult.ok u →
        acceptSecure la sa iw = AcceptResult.ok u)
  ∧ (la = IoResult.ok p → sa p.1 = TlsResult.ok ws →
        iw ws = IntoWsResult.err s r b er →
        acceptSecure la sa iw = AcceptResult.err ⟨some s, r, b, er⟩)
  ∧ (la2 = IoResult.ok p2 → iw2 p2.1 = IntoWsResult.ok u2 →
        acceptNoTls la2 iw2 = AcceptResult.ok u2)
  ∧ (la2 = IoResult.ok p2 → iw2 p2.1 = IntoWsResult.err s2 r2 b2 er2 →
        acceptNoTls la2 iw2 = AcceptResult.err ⟨some s2, r2, b2, er2⟩) := by
  refine ⟨?_, ?_, ?_, ?_⟩
  · intro h1 h2 h3
    subst h1
    simp [acceptSecure, h2, h3]
  · intro h1 h2 h3
    subst h1
    simp [acceptSecure, h2, h3]
  · intro h1 h2
    subst h1
    simp [acceptNoTls, h2]
  · intro h1 h2
    subst h1
    simp [acceptNoTls, h2]

/-- Witness for C2_contract_mapping: a secured success pull returns the
upgrade value 9 unchanged, and an unsecured contract failure is copied
through field by field. -/
theorem C2_contract_mapping_witness :
    @acceptSecure Nat Nat Nat Nat Nat Nat Nat
        (IoResult.ok (1, 0)) (fun _ => TlsResult.ok 2)
        (fun _ => IntoWsResult.ok 9)
      = AcceptResult.ok 9
  ∧ @acceptNoTls Nat Nat Nat Nat Nat Nat
        (IoResult.ok (1, 0))
        (fun _ =>
          IntoWsResult.err 1 (some 2) (some 3)
            (WsUpgradeError.invalidHandshake 4))
      = AcceptResult.err
          ⟨some 1, some 2, some 3, WsUpgradeError.invalidHandshake 4⟩ := by
  have h := @C2_contract_mapping Nat Nat Nat Nat Nat Nat Nat
    (IoResult.ok (1, 0)) (fun _ => TlsResult.ok 2)
    (fun _ => IntoWsResult.ok 9)
    (1, 0) 2 9
    2 none none (WsUpgradeError.invalidHandshake 4)
    (IoResult.ok (1, 0))
    (fun _ =>
      IntoWsResult.err 1 (some 2) (some 3)
        (WsUpgradeError.invalidHandshake 4))
    (1, 0) 9
    1 (some 2) (some 3) (WsUpgradeError.invalidHandshake 4)
  exact ⟨h.1 rfl rfl rfl, h.2.2.2 rfl rfl⟩

/-- Claim C3: on every accept (secured or unsecured) in which the
underlying accept primitive fails with e, the call returns
InvalidConnection with stream, parsed and buffer all absent and the
IoError classification of e, and the call trace stops at the listener
accept: neither the TLS step nor the handshake step is attempted. -/
theorem C3_primitive_failure {S T R B E H U : Type}
    (e : IoError E) (sa : S → TlsResult E T)
    (iw : T → IntoWsResult T R B E H U)
    (iw2 : S → IntoWsResult S R B E H U) :
    acceptSecure (IoResult.err e) sa iw
        = AcceptResult.err ⟨none, none, none, WsUpgradeError.ioError e⟩
  ∧ (acceptSecureTrace (IoResult.err e) sa iw).1
        = [AcceptStep.listenerAcceptCall]
  ∧ acceptNoTls (IoResult.err e) iw2
        = AcceptResult.err ⟨none, none, none, WsUpgradeError.ioError e⟩
  ∧ (acceptNoTlsTrace (IoResult.err e) iw2).1
        = [AcceptStep.listenerAcceptCall] :=
  ⟨rfl, rfl, rfl, rfl⟩

/-- Claim C4: for every server (secured or unsecured) and every pull,
next() returns Some of exactly one accept() outcome and never returns
none; the trace of the underlying accept shows exactly one listener
accept call, and a per-connection failure is one InvalidConnection item
rather than an end of the sequence. -/
theorem C4_iterator_next {S T R B E H U : Type}
    (la : IoResult E (S × SocketAddr)) (sa : S → TlsResult E T)
    (iw : T → IntoWsResult T R B E H U)
    (la2 : IoResult E (S × SocketAddr))
    (iw2 : S → IntoWsResult S R B E H U) :
    nextSecure la sa iw = some (acceptSecure la sa iw)
  ∧ nextSecure la sa iw ≠ none
  ∧ (acceptSecureTrace la sa iw).1.countP
        (fun st => st.isListenerAccept) = 1
  ∧ nextNoTls la2 iw2 = some (acceptNoTls la2 iw2)
  ∧ nextNoTls la2 iw2 ≠ none
  ∧ (acceptNoTlsTrace la2 iw2).1.countP
        (fun st => st.isListenerAccept) = 1 := by
  refine ⟨rfl, by simp [nextSecure], ?_, rfl, by simp [nextNoTls], ?_⟩
  · cases la with
    | err e => rfl
    | ok p =>
      cases h : sa p.1 <;>
        simp [acceptSecureTrace, h, List.countP_cons, List.countP_nil,
          AcceptStep.isListenerAccept]
  · cases la2 with
    | err e => rfl
    | ok p => rfl

/-- Claim C5: after set_nonblocking true on a server with no pending
connection, accept returns without blocking (the modelled OS primitive
does not suspend) an InvalidConnection whose error is the IoError
classification of a WouldBlock condition, with stream, parsed and buffer
absent. -/
theorem C5_nonblocking_wouldblock {S R B E H U : Type}
    (sv : WsServer NoTlsAcceptor S)
    (iw : S → IntoWsResult S R B E H U)
    (h : sv.listener.pending = []) :
    WsServer.acceptModel (sv.set_nonblocking true) iw
      = some (AcceptResult.err
          ⟨none, none, none,
            WsUpgradeError.ioError
              ⟨IoErrorKind.wouldBlock, IoCause.os 0⟩⟩) := by
  simp [WsServer.acceptModel, WsServer.set_nonblocking,
    TcpListenerSt.setNonblockingPrim, TcpListenerSt.acceptPrim, h,
    acceptNoTls, ioErrorInto]

/-- Witness for C5_nonblocking_wouldblock on a listener with socket 1,
address 2 and an empty pending queue. -/
theorem C5_nonblocking_wouldblock_witness :
    WsServer.acceptModel
        (WsServer.set_nonblocking
          (⟨⟨1, 2, false, []⟩, NoTlsAcceptor.mk⟩ :
            WsServer NoTlsAcceptor Nat) true)
        (fun _ => (IntoWsResult.ok 0 :
          IntoWsResult Nat Nat Nat Nat Nat Nat))
      = some (AcceptResult.err
          ⟨none, none, none,
            WsUpgradeError.ioError
              ⟨IoErrorKind.wouldBlock, IoCause.os 0⟩⟩) :=
  C5_nonblocking_wouldblock
    (⟨⟨1, 2, false, []⟩, NoTlsAcceptor.mk⟩ : WsServer NoTlsAcceptor Nat)
    (fun _ => IntoWsResult.ok 0) rfl

/-- Claim C6, counterexample: the secured impl block of sync.rs defines no
try_clone, so the duplication operation is not provided for the secured
transport capability. -/
theorem C6_counterexample :
    ¬ (providesTryClone Capability.secured = true) := by
  decide

/-- Claim C6 (amended): the duplication operation is provided for the
unsecured capability only; for every unsecured server a successful
try_clone returns a second handle referencing the same underlying OS
socket (same socketId, never a new socket) and carrying the cloned
acceptor configuration. -/
theorem C6_duplicate {S E : Type} (sv : WsServer NoTlsAcceptor S)
    (r : Option (IoError E)) (sv2 : WsServer NoTlsAcceptor S) :
    providesTryClone Capability.unsecured = true
  ∧ providesTryClone Capability.secured = false
  ∧ (r = none →
        WsServer.try_clone sv r
          = IoResult.ok ⟨sv.listener, sv.ssl_acceptor.clone⟩)
  ∧ (WsServer.try_clone sv r = IoResult.ok sv2 →
        sv2.listener.socketId = sv.listener.socketId
      ∧ sv2.ssl_acceptor = sv.ssl_acceptor.clone) := by
  refine ⟨rfl, rfl, ?_, ?_⟩
  · intro h
    subst h
    rfl
  · intro h
    cases r with
    | some e => simp [WsServer.try_clone, TcpListenerSt.tryClonePrim] at h
    | none =>
      simp [WsServer.try_clone, TcpListenerSt.tryClonePrim] at h
      subst h
      exact ⟨rfl, rfl⟩

/-- Witness for C6_duplicate: a successful duplication of the unsecured
server on socket 3 returns a handle on socket 3 with the cloned unit
acceptor. -/
theorem C6_duplicate_witness :
    @WsServer.try_clone Nat Nat
        ⟨⟨3, 4, false, []⟩, NoTlsAcceptor.mk⟩ none
      = IoResult.ok ⟨⟨3, 4, false, []⟩, NoTlsAcceptor.mk⟩ := by
  have h := @C6_duplicate Nat Nat ⟨⟨3, 4, false, []⟩, NoTlsAcceptor.mk⟩
    none ⟨⟨3, 4, false, []⟩, NoTlsAcceptor.mk⟩
  exact h.2.2.1 rfl

/-- Claim C7: whenever the handshake contract is called during a secured
accept on some stream ws, the underlying accept succeeded on a raw stream,
the TLS acceptor was called on that raw stream and returned exactly ws,
and the full call order is listener accept, then TLS wrapping, then
handshake detection: the handshake parser never sees the raw stream and
never runs before TLS negotiation completes. -/
theorem C7_tls_before_handshake {S T R B E H U : Type}
    (la : IoResult E (S × SocketAddr)) (sa : S → TlsResult E T)
    (iw : T → IntoWsResult T R B E H U) (ws : T)
    (h : AcceptStep.intoWsCall ws ∈ (acceptSecureTrace la sa iw).1) :
    ∃ p : S × SocketAddr,
      la = IoResult.ok p
    ∧ sa p.1 = TlsResult.ok ws
    ∧ (acceptSecureTrace la sa iw).1
        = [AcceptStep.listenerAcceptCall, AcceptStep.sslAcceptCall p.1,
            AcceptStep.intoWsCall ws] := by
  cases la with
  | err e => simp [acceptSecureTrace] at h
  | ok p =>
    cases h2 : sa p.1 with
    | err e => simp [acceptSecureTrace, h2] at h
    | ok ws2 =>
      simp [acceptSecureTrace, h2] at h
      subst h
      exact ⟨p, rfl, h2, by simp [acceptSecureTrace, h2]⟩

/-- Witness for C7_tls_before_handshake: a secured accept whose TLS step
wraps raw stream 4 into stream 9 calls the handshake contract on 9, after
the listener accept and the TLS wrapping, in that order. -/
theorem C7_tls_before_handshake_witness :
    ∃ p : Nat × SocketAddr,
      (IoResult.ok (4, 0) : IoResult Nat (Nat × SocketAddr))
          = IoResult.ok p
    ∧ (fun _ : Nat => (TlsResult.ok 9 : TlsResult Nat Nat)) p.1
          = TlsResult.ok 9
    ∧ (@acceptSecureTrace Nat Nat Nat Nat Nat Nat Nat
          (IoResult.ok (4, 0)) (fun _ => TlsResult.ok 9)
          (fun _ => IntoWsResult.ok 0)).1
        = [AcceptStep.listenerAcceptCall, AcceptStep.sslAcceptCall p.1,
            AcceptStep.intoWsCall 9] :=
  C7_tls_before_handshake (IoResult.ok (4, 0)) (fun _ => TlsResult.ok 9)
    (fun _ => IntoWsResult.ok 0) 9 (by decide)

/-- Claim C8: into_async, on success, yields an asynchronous server that
adopts the same underlying listening socket (same socketId) at the same
bound address, with the acceptor configuration field unchanged; if either
external step fails, into_async fails with that io error (the failure type
is IoResult, an io error, by construction). -/
theorem C8_into_async_preserves {A S E : Type} (sv : WsServer A S) :
    WsServer.into_async sv (none : Option (IoError E)) none
        = IoResult.ok
            ⟨⟨sv.listener.socketId, sv.listener.boundAddr⟩,
              sv.ssl_acceptor⟩
  ∧ (∀ e : IoError E, WsServer.into_async sv (some e) none
        = IoResult.err e)
  ∧ (∀ e : IoError E, WsServer.into_async sv none (some e)
        = IoResult.err e) :=
  ⟨rfl, fun _ => rfl, fun _ => rfl⟩

/-- Claim C9: bind and bind_secure return, when the underlying bind
succeeds with listener l, a new server holding exactly that freshly bound
listener (and, for bind_secure, exactly the given acceptor); when the
underlying bind fails they fail directly with the io error, not through
any Outcome value. -/
theorem C9_bind {A S E : Type} (l : TcpListenerSt S) (e : IoError E)
    (a : A) :
    WsServer.bind (IoResult.ok l)
        = (IoResult.ok ⟨l, NoTlsAcceptor.mk⟩ :
            IoResult E (WsServer NoTlsAcceptor S))
  ∧ WsServer.bind (IoResult.err e)
        = (IoResult.err e : IoResult E (WsServer NoTlsAcceptor S))
  ∧ WsServer.bind_secure (IoResult.ok l) a
        = (IoResult.ok ⟨l, a⟩ : IoResult E (WsServer A S))
  ∧ WsServer.bind_secure (IoResult.err e) a
        = (IoResult.err e : IoResult E (WsServer A S)) :=
  ⟨rfl, rfl, rfl, rfl⟩

/-- Claim C10: whenever accept returns InvalidConnection because the
handshake-detection step failed (the underlying accept and, for the
secured server, the TLS negotiation both succeeded), the stream field of
the outcome is present (some), for every error classification the
contract reports, on both the secured and the unsecured server. -/
theorem C10_stream_present {S T R B E H U : Type}
    (la : IoResult E (S × SocketAddr)) (sa : S → TlsResult E T)
    (iw : T → IntoWsResult T R B E H U)
    (p : S × SocketAddr) (ws : T)
    (s : T) (r : Option R) (b : Option B) (er : WsUpgradeError E H)
    (la2 : IoResult E (S × SocketAddr))
    (iw2 : S → IntoWsResult S R B E H U)
    (p2 : S × SocketAddr)
    (s2 : S) (r2 : Option R) (b2 : Option B) (er2 : WsUpgradeError E H)
    (h1 : la = IoResult.ok p) (h2 : sa p.1 = TlsResult.ok ws)
    (h3 : iw ws = IntoWsResult.err s r b er)
    (h4 : la2 = IoResult.ok p2)
    (h5 : iw2 p2.1 = IntoWsResult.err s2 r2 b2 er2) :
    (∃ ic, acceptSecure la sa iw = AcceptResult.err ic
        ∧ ic.stream = some s)
  ∧ (∃ ic, acceptNoTls la2 iw2 = AcceptResult.err ic
        ∧ ic.stream = some s2) := by
  subst h1
  subst h4
  exact ⟨⟨⟨some s, r, b, er⟩, by simp [acceptSecure, h2, h3], rfl⟩,
    ⟨⟨some s2, r2, b2, er2⟩, by simp [acceptNoTls, h5], rfl⟩⟩

/-- Witness for C10_stream_present with a secured handshake failure on
the wrapped stream 7 and an unsecured handshake failure on stream 1,
both with the InvalidHandshake classification. -/
theorem C10_stream_present_witness :
    (∃ ic, @acceptSecure Nat Nat Nat Nat Nat Nat Nat
          (IoResult.ok (4, 0)) (fun _ => TlsResult.ok 7)
          (fun _ =>
            IntoWsResult.err 7 none none
              (WsUpgradeError.invalidHandshake 5))
        = AcceptResult.err ic ∧ ic.stream = some 7)
  ∧ (∃ ic, @acceptNoTls Nat Nat Nat Nat Nat Nat
          (IoResult.ok (1, 0))
          (fun _ =>
            IntoWsResult.err 1 none none
              (WsUpgradeError.invalidHandshake 5))
        = AcceptResult.err ic ∧ ic.stream = some 1) :=
  C10_stream_present (IoResult.ok (4, 0)) (fun _ => TlsResult.ok 7)
    (fun _ =>
      IntoWsResult.err 7 none none (WsUpgradeError.invalidHandshake 5))
    (4, 0) 7 7 none none (WsUpgradeError.invalidHandshake 5)
    (IoResult.ok (1, 0))
    (fun _ =>
      IntoWsResult.err 1 none none (WsUpgradeError.invalidHandshake 5))
    (1, 0) 1 none none (WsUpgradeError.invalidHandshake 5)
    rfl rfl rfl rfl rfl

end RustWebsocket
